import Mathlib

/-!
Shallow embedding of the task orchestration core of `agent_task.py`:
the chat-context merge operation (`AgentTask.inject_chat_ctx`), the
global task registry (`AgentTask.register_task`, `AgentTask.all_registered_tasks`,
`AgentTask.__init__`), and the inline sub-task lifecycle
(`AgentInlineTask.run`, `AgentInlineTask.on_success`, `AgentInlineTask.on_error`).
-/

/-- A chat message: unique id, role and textual content.  Only the fields
`inject_chat_ctx` inspects (the id) plus the payload are embedded; messages
are immutable values. -/
structure ChatMessage where
  id : String
  role : String
  content : String
deriving DecidableEq, Repr

/-- An ordered log of chat messages, mirroring `ChatContext.messages`. -/
structure ChatContext where
  messages : List ChatMessage
deriving DecidableEq, Repr

/-- Two chat contexts with the same message list are equal. -/
theorem ChatContext.eq_of_messages {c d : ChatContext}
    (h : c.messages = d.messages) : c = d := by
  cases c
  cases d
  simp_all

/-- Whether some message in the list carries the given id; this mirrors the
`msg.id in existing_messages` dictionary-key test in `inject_chat_ctx`. -/
def hasId (ms : List ChatMessage) (i : String) : Bool :=
  ms.any (fun m => m.id == i)

/-- The list of message ids of a context, in order. -/
def ctxIds (c : ChatContext) : List String :=
  c.messages.map (fun m => m.id)

/-- Embedding of `AgentTask.inject_chat_ctx` (agent_task.py lines 91-96):
the id snapshot `existing_messages` is built once from the current messages,
then each incoming message is appended iff its id is absent from that
snapshot.  The snapshot is not updated while the loop runs. -/
def inject_chat_ctx (self other : ChatContext) : ChatContext :=
  let existing := self.messages
  { messages :=
      other.messages.foldl
        (fun ms m => if hasId existing m.id then ms else ms ++ [m])
        self.messages }

theorem hasId_iff (ms : List ChatMessage) (i : String) :
    hasId ms i = true ↔ i ∈ ms.map (fun m => m.id) := by
  simp [hasId, List.any_eq_true]

theorem inject_foldl_eq (existing : List ChatMessage)
    (acc ms : List ChatMessage) :
    ms.foldl (fun l m => if hasId existing m.id then l else l ++ [m]) acc
      = acc ++ ms.filter (fun m => !hasId existing m.id) := by
  induction ms generalizing acc with
  | nil => simp
  | cons m rest ih =>
    by_cases h : hasId existing m.id
    · simp [List.foldl_cons, h, ih, List.filter_cons]
    · simp [List.foldl_cons, h, ih, List.filter_cons]

/-- The merge result is the old messages followed by exactly the incoming
messages whose id is absent from the old messages, in source order. -/
theorem inject_chat_ctx_messages (c s : ChatContext) :
    (inject_chat_ctx c s).messages
      = c.messages ++ s.messages.filter (fun m => !hasId c.messages m.id) := by
  simp [inject_chat_ctx, inject_foldl_eq]

/-- Every message kept by the merge filter carries an id that is not the id
of any pre-existing message of the target. -/
theorem filter_id_not_in_target (c s : ChatContext) :
    ∀ m ∈ s.messages.filter (fun m2 => !hasId c.messages m2.id),
      m.id ∉ ctxIds c := by
  intro m hm hmem
  obtain ⟨hms, hpred⟩ := List.mem_filter.1 hm
  have hid : hasId c.messages m.id = true := (hasId_iff _ _).2 hmem
  simp [hid] at hpred

/-- C7: the merge result is the pre-existing messages followed by the newly
introduced ones, and the newly introduced ones form a sublist of the source,
hence keep the source's relative order.  Mirrors the append loop of
`inject_chat_ctx`. -/
theorem inject_chat_ctx_order_preserving (c s : ChatContext) :
    (inject_chat_ctx c s).messages
        = c.messages ++ s.messages.filter (fun m2 => !hasId c.messages m2.id) ∧
    (s.messages.filter (fun m2 => !hasId c.messages m2.id)).Sublist s.messages :=
  ⟨inject_chat_ctx_messages c s, List.filter_sublist _⟩

/-- C6: merging the same source twice yields the same message sequence as
merging it once, for every target and every source. -/
theorem inject_chat_ctx_idempotent (c s : ChatContext) :
    inject_chat_ctx (inject_chat_ctx c s) s = inject_chat_ctx c s := by
  apply ChatContext.eq_of_messages
  rw [inject_chat_ctx_messages (inject_chat_ctx c s) s]
  have hnil : s.messages.filter
      (fun m2 => !hasId (inject_chat_ctx c s).messages m2.id) = [] := by
    rw [List.filter_eq_nil_iff]
    intro m hm
    suffices h : hasId (inject_chat_ctx c s).messages m.id = true by simp [h]
    rw [hasId_iff, inject_chat_ctx_messages, List.map_append, List.mem_append]
    cases hv : hasId c.messages m.id with
    | true => exact Or.inl ((hasId_iff _ _).1 hv)
    | false =>
      refine Or.inr (List.mem_map.2 ⟨m, List.mem_filter.2 ⟨hm, ?_⟩, rfl⟩)
      simp [hv]
  rw [hnil, List.append_nil]

/-- C3 counterexample: merging a source whose own messages duplicate an id
into an empty target appends both copies, because the id snapshot is taken
once before the loop, so message ids are not unique after the merge. -/
theorem inject_chat_ctx_dup_ids_counterexample :
    ¬ (ctxIds (inject_chat_ctx (ChatContext.mk [])
        (ChatContext.mk [ChatMessage.mk "a" "user" "x",
                         ChatMessage.mk "a" "user" "y"]))).Nodup := by
  decide

/-- C3 amended: the merge appends exactly those source messages whose id is
absent from the target, no pre-existing message shares an appended message's
id, and — provided the source's own ids are unique, which the
snapshot-based filter needs — the ids of the merged context are unique
whenever the target's were. -/
theorem inject_chat_ctx_unique_ids (c s : ChatContext)
    (hc : (ctxIds c).Nodup) (hs : (ctxIds s).Nodup) :
    (inject_chat_ctx c s).messages
        = c.messages ++ s.messages.filter (fun m2 => !hasId c.messages m2.id) ∧
    (∀ m ∈ s.messages.filter (fun m2 => !hasId c.messages m2.id),
        m.id ∉ ctxIds c) ∧
    (ctxIds (inject_chat_ctx c s)).Nodup := by
  refine ⟨inject_chat_ctx_messages c s, filter_id_not_in_target c s, ?_⟩
  show ((inject_chat_ctx c s).messages.map (fun m => m.id)).Nodup
  rw [inject_chat_ctx_messages, List.map_append]
  have hsub : (s.messages.filter (fun m2 => !hasId c.messages m2.id)).Sublist
      s.messages := List.filter_sublist _
  have h2 : ((s.messages.filter (fun m2 => !hasId c.messages m2.id)).map
      (fun m => m.id)).Nodup := (hsub.map _).nodup hs
  refine List.Nodup.append hc h2 ?_
  intro a ha1 ha2
  obtain ⟨m, hm, hma⟩ := List.mem_map.1 ha2
  exact filter_id_not_in_target c s m hm (hma ▸ ha1)

/-- Concrete instance of the amended C3 theorem: message ids remain unique
after merging two fresh-id sources into a one-message target. -/
theorem inject_chat_ctx_unique_ids_witness :
    (inject_chat_ctx (ChatContext.mk [ChatMessage.mk "a" "user" "x"])
        (ChatContext.mk [ChatMessage.mk "a" "user" "y",
                         ChatMessage.mk "b" "user" "z"])).messages
        = (ChatContext.mk [ChatMessage.mk "a" "user" "x"]).messages ++
          (ChatContext.mk [ChatMessage.mk "a" "user" "y",
              ChatMessage.mk "b" "user" "z"]).messages.filter
            (fun m2 => !hasId
              (ChatContext.mk [ChatMessage.mk "a" "user" "x"]).messages m2.id) ∧
    (∀ m ∈ (ChatContext.mk [ChatMessage.mk "a" "user" "y",
              ChatMessage.mk "b" "user" "z"]).messages.filter
            (fun m2 => !hasId
              (ChatContext.mk [ChatMessage.mk "a" "user" "x"]).messages m2.id),
        m.id ∉ ctxIds (ChatContext.mk [ChatMessage.mk "a" "user" "x"])) ∧
    (ctxIds (inject_chat_ctx (ChatContext.mk [ChatMessage.mk "a" "user" "x"])
        (ChatContext.mk [ChatMessage.mk "a" "user" "y",
                         ChatMessage.mk "b" "user" "z"]))).Nodup :=
  inject_chat_ctx_unique_ids
    (ChatContext.mk [ChatMessage.mk "a" "user" "x"])
    (ChatContext.mk [ChatMessage.mk "a" "user" "y",
                     ChatMessage.mk "b" "user" "z"])
    (by decide) (by decide)

/-- Key of the single class-level registry dictionary
`AgentTask._registered_tasks`: either a name string or a concrete task
type (types are identified by their name string). -/
inductive TaskKey where
  | byName (n : String)
  | byType (t : String)
deriving DecidableEq, Repr

/-- An `AgentTask` instance as the registry sees it: its object identity
(`tid`), its concrete type, and its optional name.  The chat context, tool
context and model binding of the Python object are data fields that the
registry operations never inspect. -/
structure AgentTask where
  tid : Nat
  ttype : String
  name : Option String
deriving DecidableEq, Repr

/-- The registry dictionary, as an insertion-ordered association list with
unique keys (a Python dict); values are task identities. -/
abbrev Registry := List (TaskKey × Nat)

/-- Dictionary lookup on the registry, mirroring `key in cls._registered_tasks`
and `cls._registered_tasks[key]`. -/
def regLookup (reg : Registry) (k : TaskKey) : Option Nat :=
  match reg with
  | [] => none
  | (k1, v) :: rest => if k1 = k then some v else regLookup rest k

/-- Error raised by registration on a duplicate key
(`ValueError("... already registered")`). -/
inductive RegError where
  | alreadyRegistered
deriving DecidableEq, Repr

/-- Embedding of `AgentTask.register_task` (agent_task.py lines 70-89): key
by name when a name is given, else by the task's concrete type; raise on a
present key, leaving the dictionary untouched; otherwise insert the single
new binding and return the task.  The pair carries the post-state registry
and the outcome. -/
def register_task (reg : Registry) (task : AgentTask) (name : Option String) :
    Registry × Except RegError AgentTask :=
  match name with
  | some n =>
    match regLookup reg (TaskKey.byName n) with
    | some _ => (reg, Except.error RegError.alreadyRegistered)
    | none => (reg ++ [(TaskKey.byName n, task.tid)], Except.ok task)
  | none =>
    match regLookup reg (TaskKey.byType task.ttype) with
    | some _ => (reg, Except.error RegError.alreadyRegistered)
    | none => (reg ++ [(TaskKey.byType task.ttype, task.tid)], Except.ok task)

/-- The registered task identities, mirroring `cls._registered_tasks.values()`. -/
def regValues (reg : Registry) : List Nat :=
  reg.map Prod.snd

/-- Embedding of `AgentTask.all_registered_tasks` (lines 129-132):
`list(set(values))` de-duplicates by object identity. -/
def all_registered_tasks (reg : Registry) : List Nat :=
  (regValues reg).dedup

/-- Embedding of the registration behaviour of `AgentTask.__init__`
(lines 37-68): when a name is supplied the fresh instance is passed to
`register_task` keyed by that name, and a duplicate-name error propagates
out of the constructor before the instance is recorded anywhere; with no
name, construction touches the registry not at all. -/
def agentTask_init (reg : Registry) (ttype : String) (tid : Nat)
    (name : Option String) : Registry × Except RegError AgentTask :=
  match name with
  | some n =>
    let r := register_task reg (AgentTask.mk tid ttype (some n)) (some n)
    match r.2 with
    | Except.error e => (r.1, Except.error e)
    | Except.ok _ => (r.1, Except.ok (AgentTask.mk tid ttype (some n)))
  | none => (reg, Except.ok (AgentTask.mk tid ttype none))

/-- C8: registration fails with the duplicate error and leaves the registry
unchanged when the chosen key (the given name, else the task's concrete
type) is already present, and otherwise appends exactly that one new key
bound to the task. -/
theorem register_task_monotonic (reg : Registry) (task : AgentTask) :
    (∀ n v, regLookup reg (TaskKey.byName n) = some v →
      register_task reg task (some n)
        = (reg, Except.error RegError.alreadyRegistered)) ∧
    (∀ v, regLookup reg (TaskKey.byType task.ttype) = some v →
      register_task reg task none
        = (reg, Except.error RegError.alreadyRegistered)) ∧
    (∀ n, regLookup reg (TaskKey.byName n) = none →
      register_task reg task (some n)
        = (reg ++ [(TaskKey.byName n, task.tid)], Except.ok task)) ∧
    (regLookup reg (TaskKey.byType task.ttype) = none →
      register_task reg task none
        = (reg ++ [(TaskKey.byType task.ttype, task.tid)], Except.ok task)) := by
  refine ⟨?_, ?_, ?_, ?_⟩
  · intro n v h
    simp [register_task, h]
  · intro v h
    simp [register_task, h]
  · intro n h
    simp [register_task, h]
  · intro h
    simp [register_task, h]

/-- Concrete instance of C8: re-registering the name "intake" fails and the
registry is unchanged. -/
theorem register_task_monotonic_witness :
    register_task [(TaskKey.byName "intake", 0)] (AgentTask.mk 1 "T" none)
        (some "intake")
      = ([(TaskKey.byName "intake", 0)],
         Except.error RegError.alreadyRegistered) :=
  (register_task_monotonic [(TaskKey.byName "intake", 0)]
      (AgentTask.mk 1 "T" none)).1 "intake" 0 (by decide)

/-- C9: the enumeration of registered tasks lists every registered identity
exactly once — an instance registered under both a name key and a type key
is not double-counted — and lists nothing that is not registered. -/
theorem all_registered_tasks_dedup (reg : Registry) :
    (∀ t, t ∈ regValues reg → (all_registered_tasks reg).count t = 1) ∧
    (∀ t, t ∈ all_registered_tasks reg → t ∈ regValues reg) := by
  constructor
  · intro t ht
    exact List.count_eq_one_of_mem (List.nodup_dedup _) (List.mem_dedup.2 ht)
  · intro t ht
    exact List.mem_dedup.1 ht

/-- Concrete instance of C9: identity 5 registered by name and by type is
counted once. -/
theorem all_registered_tasks_dedup_witness :
    (all_registered_tasks
        [(TaskKey.byName "intake", 5), (TaskKey.byType "T", 5)]).count 5 = 1 :=
  (all_registered_tasks_dedup
      [(TaskKey.byName "intake", 5), (TaskKey.byType "T", 5)]).1 5 (by decide)

/-- C10: constructing with a fresh name registers the instance under that
name; constructing with an already-registered name raises the duplicate
error and leaves the registry unchanged, so the partially constructed
instance is not registered; constructing without a name performs no
registration. -/
theorem agentTask_init_registration (reg : Registry) (ttype : String)
    (tid : Nat) :
    (∀ n, regLookup reg (TaskKey.byName n) = none →
      agentTask_init reg ttype tid (some n)
        = (reg ++ [(TaskKey.byName n, tid)],
           Except.ok (AgentTask.mk tid ttype (some n)))) ∧
    (∀ n v, regLookup reg (TaskKey.byName n) = some v →
      agentTask_init reg ttype tid (some n)
        = (reg, Except.error RegError.alreadyRegistered)) ∧
    agentTask_init reg ttype tid none
      = (reg, Except.ok (AgentTask.mk tid ttype none)) := by
  refine ⟨?_, ?_, rfl⟩
  · intro n h
    simp [agentTask_init, register_task, h]
  · intro n v h
    simp [agentTask_init, register_task, h]

/-- Concrete instance of C10: constructing a second task named "intake"
fails and the registry still holds only the first registration. -/
theorem agentTask_init_registration_witness :
    agentTask_init [(TaskKey.byName "intake", 0)] "T" 1 (some "intake")
      = ([(TaskKey.byName "intake", 0)],
         Except.error RegError.alreadyRegistered) :=
  (agentTask_init_registration [(TaskKey.byName "intake", 0)] "T" 1).2.1
    "intake" 0 (by decide)

/-- State of the single-assignment completion future `_done_fut` of an
`AgentInlineTask`: pending, resolved with the `None` result, or resolved
with a `TaskFailed(reason)` exception. -/
inductive FutState where
  | pending
  | success
  | failed (reason : String)
deriving DecidableEq, Repr

/-- The stored exception of the future, mirroring
`self._done_fut.exception()` (the reason string of the `TaskFailed`). -/
def futException : FutState → Option String
  | FutState.failed r => some r
  | _ => none

/-- The mutable completion state of an `AgentInlineTask`: the done-future
and the stored result `_result` (preset at construction, optionally set by
subclass tools before resolution). -/
structure InlineState (α : Type) where
  fut : FutState
  result : Option α
deriving DecidableEq, Repr

/-- The marker object returned by the two terminal tools so that the
orchestrator produces no spoken reply for the bookkeeping call; it carries
the result and exception read back after the guard. -/
structure SilentSentinel (α : Type) where
  result : Option α
  error : Option String
deriving DecidableEq, Repr

/-- Embedding of `AgentInlineTask.on_success` (lines 206-213): resolve the
future with `None` only when it is still pending, then report the stored
result and exception through a silent sentinel. -/
def on_success {α : Type} (s : InlineState α) :
    InlineState α × SilentSentinel α :=
  let s1 := if s.fut = FutState.pending
    then { s with fut := FutState.success } else s
  (s1, SilentSentinel.mk s1.result (futException s1.fut))

/-- Embedding of `AgentInlineTask.on_error` (lines 215-225): set a
`TaskFailed(reason)` exception on the future only when it is still pending,
then report the stored result and exception through a silent sentinel. -/
def on_error {α : Type} (reason : String) (s : InlineState α) :
    InlineState α × SilentSentinel α :=
  let s1 := if s.fut = FutState.pending
    then { s with fut := FutState.failed reason } else s
  (s1, SilentSentinel.mk s1.result (futException s1.fut))

/-- The orchestrator state the inline task touches: the current-task
pointer of the pipeline agent, holding a task identity. -/
structure Orch where
  current : Nat
deriving DecidableEq, Repr

/-- Embedding of `agent.update_task`, the external collaborator call that
swaps the orchestrator's current task. -/
def update_task (o : Orch) (t : Nat) : Orch :=
  { o with current := t }

/-- The failures `run` can surface to its caller. -/
inductive RunError where
  | taskFailed (reason : String)
  | resultNotSet
deriving DecidableEq, Repr

/-- Embedding of `AgentInlineTask.run` (lines 157-204).  The parent is
captured from the orchestrator's current task, the task installs itself as
current, and the caller suspends on the done-future; `suspend` stands for
everything the conversational loop does to the orchestrator while `run`
awaits (serving turns, including nested delegations that swap the current
task and restore it).  On resume with state `s`: a stored `TaskFailed` is
raised by the await, a missing result raises `ResultNotSet`, otherwise the
stored result is returned; the `finally` block restores the captured parent
on every one of these exit paths.  A never-resolved future means `run`
never completes, modelled as `none`.  The speech-synthesis side effects of
`proactive_reply` touch only the external speech system and are not
modelled. -/
def run {α : Type} (agent : Orch) (selfId : Nat) (suspend : Orch → Orch)
    (s : InlineState α) : Option (Orch × Except RunError α) :=
  let parent := agent.current
  let agent1 := update_task agent selfId
  let agent2 := suspend agent1
  match s.fut with
  | FutState.pending => none
  | FutState.failed r =>
    some (update_task agent2 parent, Except.error (RunError.taskFailed r))
  | FutState.success =>
    match s.result with
    | none => some (update_task agent2 parent, Except.error RunError.resultNotSet)
    | some v => some (update_task agent2 parent, Except.ok v)

/-- C1: whenever `run` completes — returning the stored result, raising
`TaskFailed`, or raising `ResultNotSet`, under any behaviour of the
conversational loop while suspended (hence under any nested delegation) —
the orchestrator's current task is restored to the task that was current
immediately before `run` was invoked. -/
theorem run_restores_parent {α : Type} (agent : Orch) (selfId : Nat)
    (suspend : Orch → Orch) (s : InlineState α) (agent2 : Orch)
    (out : Except RunError α)
    (h : run agent selfId suspend s = some (agent2, out)) :
    agent2.current = agent.current := by
  cases s with
  | mk fut result =>
    cases fut with
    | pending => simp [run] at h
    | failed r =>
      simp [run, update_task] at h
      rw [← h.1]
    | success =>
      cases result with
      | none =>
        simp [run, update_task] at h
        rw [← h.1]
      | some v =>
        simp [run, update_task] at h
        rw [← h.1]

/-- Concrete instance of C1: a successful run from current task 7 restores
current task 7. -/
theorem run_restores_parent_witness :
    (Orch.mk 7).current = (Orch.mk 7).current :=
  run_restores_parent (Orch.mk 7) 3 id
    (InlineState.mk FutState.success (some (42 : Nat)))
    (Orch.mk 7) (Except.ok 42) rfl

/-- C2: the completion slot resolves at most once — after `on_success` or
`on_error` has run, any further call to either leaves the whole inline
state (stored result and stored exception included) unchanged, so the
first terminal operation to reach the guard wins. -/
theorem completion_slot_single_resolution {α : Type} (s : InlineState α)
    (r r2 : String) :
    (on_success (on_success s).1).1 = (on_success s).1 ∧
    (on_error r2 (on_success s).1).1 = (on_success s).1 ∧
    (on_success (on_error r s).1).1 = (on_error r s).1 ∧
    (on_error r2 (on_error r s).1).1 = (on_error r s).1 := by
  cases s with
  | mk fut result =>
    cases fut <;> simp [on_success, on_error]

/-- C4: when `on_error` is the first terminal operation and carries some
reason, the completed `run` surfaces exactly one `TaskFailed` with that
same reason, and restores the parent as current. -/
theorem on_error_propagates_task_failed {α : Type} (agent : Orch)
    (selfId : Nat) (suspend : Orch → Orch) (s : InlineState α)
    (reason : String) (h : s.fut = FutState.pending) :
    run agent selfId suspend (on_error reason s).1
      = some (update_task (suspend (update_task agent selfId)) agent.current,
              Except.error (RunError.taskFailed reason)) := by
  simp [on_error, h, run]

/-- Concrete instance of C4: failing with reason "user declined" makes run
surface TaskFailed "user declined". -/
theorem on_error_propagates_task_failed_witness :
    run (Orch.mk 1) 2 id
        (on_error "user declined"
          (InlineState.mk FutState.pending (none : Option Nat))).1
      = some (update_task (id (update_task (Orch.mk 1) 2)) (Orch.mk 1).current,
              Except.error (RunError.taskFailed "user declined")) :=
  on_error_propagates_task_failed (Orch.mk 1) 2 id
    (InlineState.mk FutState.pending (none : Option Nat)) "user declined" rfl

/-- C5: when `on_success` resolves a pending task, the completed `run`
raises `ResultNotSet` if the stored result was never set, and returns the
stored result if one was set. -/
theorem on_success_result_cases {α : Type} (agent : Orch) (selfId : Nat)
    (suspend : Orch → Orch) (s : InlineState α)
    (h : s.fut = FutState.pending) :
    (s.result = none →
      run agent selfId suspend (on_success s).1
        = some (update_task (suspend (update_task agent selfId)) agent.current,
                Except.error RunError.resultNotSet)) ∧
    (∀ v, s.result = some v →
      run agent selfId suspend (on_success s).1
        = some (update_task (suspend (update_task agent selfId)) agent.current,
                Except.ok v)) := by
  constructor
  · intro hr
    simp [on_success, h, hr, run]
  · intro v hr
    simp [on_success, h, hr, run]

/-- Concrete instance of C5: succeeding with stored result 5 makes run
return 5. -/
theorem on_success_result_cases_witness :
    run (Orch.mk 1) 2 id
        (on_success (InlineState.mk FutState.pending (some (5 : Nat)))).1
      = some (update_task (id (update_task (Orch.mk 1) 2)) (Orch.mk 1).current,
              Except.ok 5) :=
  (on_success_result_cases (Orch.mk 1) 2 id
      (InlineState.mk FutState.pending (some (5 : Nat))) rfl).2 5 rfl
